import Mathlib

/-!
Verification of the geyser equity-research scoring engine.

The definitions below are a shallow embedding of the Python modules
`src/report_generator.py` (classes `ScoringEngine` and `ThesisGenerator`),
`src/peer_comparison.py` (method `calculate_relative_valuation`) and the
constants of `src/config.py`.  Python floats are modelled by `ℚ`;
`round(x, n)` and the `.nf` / `.n%` format specifiers use round-half-to-even,
as Python does.  A Python value that may be absent or `None` is an
`Option ℚ`; Python truthiness tests (`if x:`) are `pyTruthy`, which also
rejects `0`.
-/

set_option maxRecDepth 100000

namespace Geyser

/-- Round-half-to-even of a rational to an integer, as Python's `round`. -/
def pyRoundInt (q : ℚ) : ℤ :=
  if q - (⌊q⌋ : ℚ) < 1/2 then ⌊q⌋
  else if (1 : ℚ)/2 < q - (⌊q⌋ : ℚ) then ⌊q⌋ + 1
  else if ⌊q⌋ % 2 = 0 then ⌊q⌋ else ⌊q⌋ + 1

/-- Python's `round(q, d)` for a non-negative number of digits `d`. -/
def pyRound (d : ℕ) (q : ℚ) : ℚ :=
  (pyRoundInt (q * (10 : ℚ) ^ d) : ℚ) / (10 : ℚ) ^ d

/-- Python truthiness on an optional number: `None` and `0` are falsy. -/
def pyTruthy (o : Option ℚ) : Option ℚ :=
  match o with
  | some v => if v = 0 then none else some v
  | none => none

/-- Python's `a or b` on two optional numbers. -/
def pyOrOpt (a b : Option ℚ) : Option ℚ :=
  match pyTruthy a with
  | some v => some v
  | none => b

/-- `max(1, min(10, s))`: the clamp applied by every category scorer. -/
def clampQ (s : ℚ) : ℚ := max 1 (min 10 s)

/-- Left-pad the decimal digits of `m` with zeros to width `d`. -/
def natPad (d m : ℕ) : String :=
  String.mk (List.replicate (d - (toString m).length) '0') ++ toString m

/-- Python's fixed-point format `f"{q:.df}"` (round-half-to-even). -/
def pyFix (d : ℕ) (q : ℚ) : String :=
  let n := pyRoundInt (q * (10 : ℚ) ^ d)
  let sgn := if q < 0 then "-" else ""
  let m := n.natAbs
  if d = 0 then sgn ++ toString m
  else sgn ++ toString (m / 10 ^ d) ++ "." ++ natPad d (m % 10 ^ d)

/-- Python's percent format `f"{q:.d%}"`. -/
def pyPct (d : ℕ) (q : ℚ) : String := pyFix d (q * 100) ++ "%"

theorem pyRoundInt_lower {n : ℤ} {q : ℚ} (h : (n : ℚ) ≤ q) : n ≤ pyRoundInt q := by
  have hf : n ≤ ⌊q⌋ := Int.le_floor.mpr h
  unfold pyRoundInt
  split
  · exact hf
  · split
    · omega
    · split <;> omega

theorem pyRoundInt_upper {n : ℤ} {q : ℚ} (h : q ≤ (n : ℚ)) : pyRoundInt q ≤ n := by
  have hf : ⌊q⌋ ≤ n := by
    have h2 := Int.floor_mono h
    rwa [Int.floor_intCast] at h2
  unfold pyRoundInt
  by_cases h1 : q - (⌊q⌋ : ℚ) < 1/2
  · simp only [if_pos h1]; exact hf
  · have hq : (⌊q⌋ : ℚ) < q := by
      have hr : (1 : ℚ)/2 ≤ q - (⌊q⌋ : ℚ) := not_lt.mp h1
      linarith
    have hlt : ⌊q⌋ < n := by
      have : (⌊q⌋ : ℚ) < (n : ℚ) := lt_of_lt_of_le hq h
      exact_mod_cast this
    simp only [if_neg h1]
    split
    · omega
    · split <;> omega

theorem le_pyRound {n : ℤ} {q : ℚ} (d : ℕ) (h : (n : ℚ) ≤ q) : (n : ℚ) ≤ pyRound d q := by
  have hp : (0 : ℚ) < (10 : ℚ) ^ d := by positivity
  unfold pyRound
  rw [le_div_iff₀ hp]
  have h1 : ((n * 10 ^ d : ℤ) : ℚ) ≤ q * (10 : ℚ) ^ d := by
    push_cast
    exact mul_le_mul_of_nonneg_right h (le_of_lt hp)
  have h2 := pyRoundInt_lower h1
  calc (n : ℚ) * (10 : ℚ) ^ d = ((n * 10 ^ d : ℤ) : ℚ) := by push_cast; ring
    _ ≤ (pyRoundInt (q * (10 : ℚ) ^ d) : ℚ) := by exact_mod_cast h2

theorem pyRound_le {n : ℤ} {q : ℚ} (d : ℕ) (h : q ≤ (n : ℚ)) : pyRound d q ≤ (n : ℚ) := by
  have hp : (0 : ℚ) < (10 : ℚ) ^ d := by positivity
  unfold pyRound
  rw [div_le_iff₀ hp]
  have h1 : q * (10 : ℚ) ^ d ≤ ((n * 10 ^ d : ℤ) : ℚ) := by
    push_cast
    exact mul_le_mul_of_nonneg_right h (le_of_lt hp)
  have h2 := pyRoundInt_upper h1
  calc (pyRoundInt (q * (10 : ℚ) ^ d) : ℚ) ≤ ((n * 10 ^ d : ℤ) : ℚ) := by exact_mod_cast h2
    _ = (n : ℚ) * (10 : ℚ) ^ d := by push_cast; ring

theorem clampQ_bounds (s : ℚ) : 1 ≤ clampQ s ∧ clampQ s ≤ 10 := by
  constructor
  · exact le_max_left 1 _
  · apply max_le
    · norm_num
    · exact le_trans (min_le_left 10 s) (le_refl 10)

/-- The returned `score` field, `round(max(1, min(10, s)), 1)`, is in `[1, 10]`. -/
theorem roundedScore_bounds (s : ℚ) :
    1 ≤ pyRound 1 (clampQ s) ∧ pyRound 1 (clampQ s) ≤ 10 := by
  obtain ⟨h1, h2⟩ := clampQ_bounds s
  constructor
  · have := le_pyRound (n := 1) (q := clampQ s) 1 (by exact_mod_cast h1)
    exact_mod_cast this
  · have := pyRound_le (n := 10) (q := clampQ s) 1 (by exact_mod_cast h2)
    exact_mod_cast this

/-! ## Configuration constants (`src/config.py`) -/

def SCORE_WEIGHTS_valuation : ℚ := 0.25
def SCORE_WEIGHTS_growth : ℚ := 0.20
def SCORE_WEIGHTS_profitability : ℚ := 0.20
def SCORE_WEIGHTS_financial_health : ℚ := 0.15
def SCORE_WEIGHTS_momentum_sentiment : ℚ := 0.10
def SCORE_WEIGHTS_quality_moat : ℚ := 0.10

def RECOMMENDATION_THRESHOLDS_strong_buy : ℚ := 8.0
def RECOMMENDATION_THRESHOLDS_buy : ℚ := 6.5
def RECOMMENDATION_THRESHOLDS_hold : ℚ := 5.0
def RECOMMENDATION_THRESHOLDS_sell : ℚ := 3.5

/-! ## Input bags

The scoring engine reads `analysis["valuation" | "growth" | "profitability" |
"financial_health"]`, `peer_summary["relative_valuation"]`, and
`sentiment["momentum" | "analyst_recommendations" | "earnings_history"]`.
Each field is an `Option ℚ` (`none` = key absent or value `None`). -/

structure ValuationBag where
  pe_trailing : Option ℚ
  pe_forward : Option ℚ
  peg_ratio : Option ℚ
  fcf_yield : Option ℚ

structure GrowthBag where
  revenue_growth_1y : Option ℚ
  revenue_growth_yoy : Option ℚ
  revenue_cagr_3y : Option ℚ
  eps_growth_1y : Option ℚ
  fcf_growth_1y : Option ℚ

structure ProfitabilityBag where
  gross_margin : Option ℚ
  operating_margin : Option ℚ
  roe : Option ℚ
  roic : Option ℚ

structure HealthBag where
  current_ratio : Option ℚ
  debt_to_equity : Option ℚ
  interest_coverage : Option ℚ
  altman_z_score : Option ℚ

structure AnalysisIn where
  valuation : ValuationBag
  growth : GrowthBag
  profitability : ProfitabilityBag
  financial_health : HealthBag

structure PeerIn where
  avg_premium_discount : Option ℚ

structure SentimentIn where
  momentum_score : Option ℚ
  technical_signals : List String
  mean_rating : Option ℚ
  upside_pct : Option ℚ
  beat_rate : Option ℚ

def emptyValuationBag : ValuationBag := ⟨none, none, none, none⟩

def emptyGrowthBag : GrowthBag := ⟨none, none, none, none, none⟩

def emptyProfitabilityBag : ProfitabilityBag := ⟨none, none, none, none⟩

def emptyHealthBag : HealthBag := ⟨none, none, none, none⟩

def emptyAnalysis : AnalysisIn :=
  ⟨emptyValuationBag, emptyGrowthBag, emptyProfitabilityBag, emptyHealthBag⟩

def emptyPeer : PeerIn := ⟨none⟩

def emptySentiment : SentimentIn := ⟨none, [], none, none, none⟩

/-- The dictionary a category scorer returns:
`{"score": round(s, 1), "weight": w, "weighted": round(s * w, 2), "factors": fs}`
with `s` the clamped raw score. -/
structure CategoryScore where
  score : ℚ
  weight : ℚ
  weighted : ℚ
  factors : List String

def mkCategory (w raw : ℚ) (factors : List String) : CategoryScore :=
  let s := clampQ raw
  ⟨pyRound 1 s, w, pyRound 2 (s * w), factors⟩

/-! ## `ScoringEngine.score_valuation` -/

/-- Trailing P/E ladder (`if pe: if pe < 15 ... elif pe < 25 ... elif pe > 50 ...
elif pe > 35 ...`). -/
def pe_delta (o : Option ℚ) : ℚ :=
  match pyTruthy o with
  | none => 0
  | some pe =>
    if pe < 15 then 1.5 else if pe < 25 then 0.5
    else if pe > 50 then -1.5 else if pe > 35 then -0.5 else 0

def pe_factors (o : Option ℚ) : List String :=
  match pyTruthy o with
  | none => []
  | some pe =>
    if pe < 15 then ["Low P/E (" ++ pyFix 1 pe ++ "x) suggests value"]
    else if pe < 25 then ["Reasonable P/E (" ++ pyFix 1 pe ++ "x)"]
    else if pe > 50 then ["High P/E (" ++ pyFix 1 pe ++ "x) suggests premium valuation"]
    else if pe > 35 then ["Elevated P/E (" ++ pyFix 1 pe ++ "x)"]
    else []

/-- `if pe and pe_forward:` comparison of forward vs trailing P/E. -/
def forward_pe_delta (pe fwd : Option ℚ) : ℚ :=
  match pyTruthy pe, pyTruthy fwd with
  | some p, some f => if f < p * 0.8 then 0.5 else if f > p * 1.2 then -0.5 else 0
  | _, _ => 0

def forward_pe_factors (pe fwd : Option ℚ) : List String :=
  match pyTruthy pe, pyTruthy fwd with
  | some p, some f =>
    if f < p * 0.8 then ["Forward P/E significantly lower - growth expected"]
    else if f > p * 1.2 then ["Forward P/E higher - potential earnings decline"]
    else []
  | _, _ => []

def peg_delta (o : Option ℚ) : ℚ :=
  match pyTruthy o with
  | none => 0
  | some peg => if peg < 1 then 1 else if peg > 2 then -0.5 else 0

def peg_factors (o : Option ℚ) : List String :=
  match pyTruthy o with
  | none => []
  | some peg =>
    if peg < 1 then ["Attractive PEG ratio (" ++ pyFix 2 peg ++ ")"]
    else if peg > 2 then ["High PEG ratio (" ++ pyFix 2 peg ++ ")"]
    else []

/-- `avg_premium = relative_val.get("avg_premium_discount", 0)` ladder;
the argument is the already-defaulted value. -/
def premium_delta (avg : ℚ) : ℚ :=
  if avg < -20 then 1 else if avg < -10 then 0.5
  else if avg > 30 then -1 else if avg > 15 then -0.5 else 0

def premium_factors (avg : ℚ) : List String :=
  if avg < -20 then ["Trading at " ++ pyFix 0 |avg| ++ "% discount to peers"]
  else if avg < -10 then ["Trading at slight discount to peers"]
  else if avg > 30 then ["Significant premium (" ++ pyFix 0 avg ++ "%) vs peers"]
  else if avg > 15 then ["Premium valuation vs peers"]
  else []

def fcf_yield_delta (o : Option ℚ) : ℚ :=
  match pyTruthy o with
  | none => 0
  | some fy => if fy > 0.06 then 0.5 else if fy < 0.02 then -0.5 else 0

def fcf_yield_factors (o : Option ℚ) : List String :=
  match pyTruthy o with
  | none => []
  | some fy =>
    if fy > 0.06 then ["Strong FCF yield (" ++ pyPct 1 fy ++ ")"]
    else if fy < 0.02 then ["Low FCF yield (" ++ pyPct 1 fy ++ ")"]
    else []

def valuation_raw (a : AnalysisIn) (p : PeerIn) : ℚ :=
  5 + pe_delta a.valuation.pe_trailing
    + forward_pe_delta a.valuation.pe_trailing a.valuation.pe_forward
    + peg_delta a.valuation.peg_ratio
    + premium_delta (p.avg_premium_discount.getD 0)
    + fcf_yield_delta a.valuation.fcf_yield

def valuation_factors (a : AnalysisIn) (p : PeerIn) : List String :=
  pe_factors a.valuation.pe_trailing
    ++ forward_pe_factors a.valuation.pe_trailing a.valuation.pe_forward
    ++ peg_factors a.valuation.peg_ratio
    ++ premium_factors (p.avg_premium_discount.getD 0)
    ++ fcf_yield_factors a.valuation.fcf_yield

def score_valuation (a : AnalysisIn) (p : PeerIn) : CategoryScore :=
  mkCategory SCORE_WEIGHTS_valuation (valuation_raw a p) (valuation_factors a p)

/-! ## `ScoringEngine.score_growth` -/

/-- `rev_growth = growth.get("revenue_growth_1y") or growth.get("revenue_growth_yoy")`
followed by the truthiness-guarded ladder. -/
def revenue_growth_delta (o : Option ℚ) : ℚ :=
  match pyTruthy o with
  | none => 0
  | some g =>
    if g > 0.30 then 2 else if g > 0.15 then 1
    else if g > 0.05 then 0.5 else if g < 0 then -1 else 0

def revenue_growth_factors (o : Option ℚ) : List String :=
  match pyTruthy o with
  | none => []
  | some g =>
    if g > 0.30 then ["Excellent revenue growth (" ++ pyPct 1 g ++ ")"]
    else if g > 0.15 then ["Strong revenue growth (" ++ pyPct 1 g ++ ")"]
    else if g > 0.05 then ["Moderate revenue growth (" ++ pyPct 1 g ++ ")"]
    else if g < 0 then ["Revenue declining (" ++ pyPct 1 g ++ ")"]
    else []

def revenue_cagr_delta (o : Option ℚ) : ℚ :=
  match pyTruthy o with
  | none => 0
  | some c => if c > 0.20 then 1 else if c < 0.05 then -0.5 else 0

def revenue_cagr_factors (o : Option ℚ) : List String :=
  match pyTruthy o with
  | none => []
  | some c =>
    if c > 0.20 then ["Strong 3-year revenue CAGR (" ++ pyPct 1 c ++ ")"]
    else if c < 0.05 then ["Slow revenue growth over 3 years"]
    else []

def eps_growth_delta (o : Option ℚ) : ℚ :=
  match pyTruthy o with
  | none => 0
  | some e => if e > 0.25 then 1 else if e < 0 then -1 else 0

def eps_growth_factors (o : Option ℚ) : List String :=
  match pyTruthy o with
  | none => []
  | some e =>
    if e > 0.25 then ["Strong EPS growth (" ++ pyPct 1 e ++ ")"]
    else if e < 0 then ["EPS declining (" ++ pyPct 1 e ++ ")"]
    else []

def fcf_growth_delta (o : Option ℚ) : ℚ :=
  match pyTruthy o with
  | none => 0
  | some f => if f > 0.20 then 0.5 else if f < -0.20 then -0.5 else 0

def fcf_growth_factors (o : Option ℚ) : List String :=
  match pyTruthy o with
  | none => []
  | some f =>
    if f > 0.20 then ["Strong FCF growth (" ++ pyPct 1 f ++ ")"]
    else if f < -0.20 then ["FCF declining significantly"]
    else []

def growth_raw (a : AnalysisIn) : ℚ :=
  5 + revenue_growth_delta (pyOrOpt a.growth.revenue_growth_1y a.growth.revenue_growth_yoy)
    + revenue_cagr_delta a.growth.revenue_cagr_3y
    + eps_growth_delta a.growth.eps_growth_1y
    + fcf_growth_delta a.growth.fcf_growth_1y

def growth_factors (a : AnalysisIn) : List String :=
  revenue_growth_factors (pyOrOpt a.growth.revenue_growth_1y a.growth.revenue_growth_yoy)
    ++ revenue_cagr_factors a.growth.revenue_cagr_3y
    ++ eps_growth_factors a.growth.eps_growth_1y
    ++ fcf_growth_factors a.growth.fcf_growth_1y

def score_growth (a : AnalysisIn) : CategoryScore :=
  mkCategory SCORE_WEIGHTS_growth (growth_raw a) (growth_factors a)

/-! ## `ScoringEngine.score_profitability` -/

def gross_margin_delta (o : Option ℚ) : ℚ :=
  match pyTruthy o with
  | none => 0
  | some g =>
    if g > 0.60 then 1.5 else if g > 0.40 then 0.5 else if g < 0.20 then -1 else 0

def gross_margin_factors (o : Option ℚ) : List String :=
  match pyTruthy o with
  | none => []
  | some g =>
    if g > 0.60 then ["Excellent gross margin (" ++ pyPct 1 g ++ ")"]
    else if g > 0.40 then ["Good gross margin (" ++ pyPct 1 g ++ ")"]
    else if g < 0.20 then ["Low gross margin (" ++ pyPct 1 g ++ ")"]
    else []

def op_margin_delta (o : Option ℚ) : ℚ :=
  match pyTruthy o with
  | none => 0
  | some m =>
    if m > 0.25 then 1 else if m > 0.15 then 0.5 else if m < 0.05 then -1 else 0

def op_margin_factors (o : Option ℚ) : List String :=
  match pyTruthy o with
  | none => []
  | some m =>
    if m > 0.25 then ["Strong operating margin (" ++ pyPct 1 m ++ ")"]
    else if m > 0.15 then ["Healthy operating margin (" ++ pyPct 1 m ++ ")"]
    else if m < 0.05 then ["Thin operating margin (" ++ pyPct 1 m ++ ")"]
    else []

def roe_delta (o : Option ℚ) : ℚ :=
  match pyTruthy o with
  | none => 0
  | some r =>
    if r > 0.25 then 1 else if r > 0.15 then 0.5 else if r < 0.08 then -0.5 else 0

def roe_factors (o : Option ℚ) : List String :=
  match pyTruthy o with
  | none => []
  | some r =>
    if r > 0.25 then ["Excellent ROE (" ++ pyPct 1 r ++ ")"]
    else if r > 0.15 then ["Good ROE (" ++ pyPct 1 r ++ ")"]
    else if r < 0.08 then ["Low ROE (" ++ pyPct 1 r ++ ")"]
    else []

def roic_delta (o : Option ℚ) : ℚ :=
  match pyTruthy o with
  | none => 0
  | some r => if r > 0.20 then 1 else if r < 0.08 then -0.5 else 0

def roic_factors (o : Option ℚ) : List String :=
  match pyTruthy o with
  | none => []
  | some r =>
    if r > 0.20 then ["High ROIC (" ++ pyPct 1 r ++ ") - efficient capital allocation"]
    else if r < 0.08 then ["Low ROIC (" ++ pyPct 1 r ++ ")"]
    else []

def profitability_raw (a : AnalysisIn) : ℚ :=
  5 + gross_margin_delta a.profitability.gross_margin
    + op_margin_delta a.profitability.operating_margin
    + roe_delta a.profitability.roe
    + roic_delta a.profitability.roic

def profitability_factors (a : AnalysisIn) : List String :=
  gross_margin_factors a.profitability.gross_margin
    ++ op_margin_factors a.profitability.operating_margin
    ++ roe_factors a.profitability.roe
    ++ roic_factors a.profitability.roic

def score_profitability (a : AnalysisIn) : CategoryScore :=
  mkCategory SCORE_WEIGHTS_profitability (profitability_raw a) (profitability_factors a)

/-! ## `ScoringEngine.score_financial_health` -/

def current_ratio_delta (o : Option ℚ) : ℚ :=
  match pyTruthy o with
  | none => 0
  | some c => if c > 2 then 1 else if c > 1.5 then 0.5 else if c < 1 then -1 else 0

def current_ratio_factors (o : Option ℚ) : List String :=
  match pyTruthy o with
  | none => []
  | some c =>
    if c > 2 then ["Strong current ratio (" ++ pyFix 2 c ++ ")"]
    else if c > 1.5 then ["Healthy current ratio (" ++ pyFix 2 c ++ ")"]
    else if c < 1 then ["Low current ratio (" ++ pyFix 2 c ++ ") - liquidity risk"]
    else []

/-- The debt/equity ladder is guarded by `if de_ratio is not None:` — a plain
`None` check, not truthiness, so a value of `0` runs the ladder. -/
def de_ratio_delta (o : Option ℚ) : ℚ :=
  match o with
  | none => 0
  | some d => if d < 30 then 1 else if d < 100 then 0.5 else if d > 200 then -1 else 0

def de_ratio_factors (o : Option ℚ) : List String :=
  match o with
  | none => []
  | some d =>
    if d < 30 then ["Low leverage (D/E: " ++ pyFix 0 d ++ "%)"]
    else if d < 100 then ["Moderate leverage (D/E: " ++ pyFix 0 d ++ "%)"]
    else if d > 200 then ["High leverage (D/E: " ++ pyFix 0 d ++ "%)"]
    else []

def interest_coverage_delta (o : Option ℚ) : ℚ :=
  match pyTruthy o with
  | none => 0
  | some i => if i > 10 then 1 else if i > 5 then 0.5 else if i < 2 then -1 else 0

def interest_coverage_factors (o : Option ℚ) : List String :=
  match pyTruthy o with
  | none => []
  | some i =>
    if i > 10 then ["Excellent interest coverage (" ++ pyFix 1 i ++ "x)"]
    else if i > 5 then ["Good interest coverage (" ++ pyFix 1 i ++ "x)"]
    else if i < 2 then ["Low interest coverage (" ++ pyFix 1 i ++ "x) - debt risk"]
    else []

def z_score_delta (o : Option ℚ) : ℚ :=
  match pyTruthy o with
  | none => 0
  | some z => if z > 3 then 0.5 else if z < 1.8 then -1 else 0

def z_score_factors (o : Option ℚ) : List String :=
  match pyTruthy o with
  | none => []
  | some z =>
    if z > 3 then ["Strong Altman Z-Score (" ++ pyFix 2 z ++ ") - low bankruptcy risk"]
    else if z < 1.8 then ["Low Altman Z-Score (" ++ pyFix 2 z ++ ") - elevated risk"]
    else []

def financial_health_raw (a : AnalysisIn) : ℚ :=
  5 + current_ratio_delta a.financial_health.current_ratio
    + de_ratio_delta a.financial_health.debt_to_equity
    + interest_coverage_delta a.financial_health.interest_coverage
    + z_score_delta a.financial_health.altman_z_score

def financial_health_factors (a : AnalysisIn) : List String :=
  current_ratio_factors a.financial_health.current_ratio
    ++ de_ratio_factors a.financial_health.debt_to_equity
    ++ interest_coverage_factors a.financial_health.interest_coverage
    ++ z_score_factors a.financial_health.altman_z_score

def score_financial_health (a : AnalysisIn) : CategoryScore :=
  mkCategory SCORE_WEIGHTS_financial_health (financial_health_raw a) (financial_health_factors a)

/-! ## `ScoringEngine.score_momentum_sentiment`

The baseline is `momentum.get("momentum_score", 5)` instead of 5.0. -/

def mean_rating_delta (o : Option ℚ) : ℚ :=
  match pyTruthy o with
  | none => 0
  | some m => if m ≤ 2 then 1 else if m ≤ 2.5 then 0.5 else if m ≥ 4 then -1 else 0

def mean_rating_factors (o : Option ℚ) : List String :=
  match pyTruthy o with
  | none => []
  | some m =>
    if m ≤ 2 then ["Strong analyst buy consensus"]
    else if m ≤ 2.5 then ["Positive analyst sentiment"]
    else if m ≥ 4 then ["Bearish analyst sentiment"]
    else []

/-- Price-target upside uses an `is not None` guard. -/
def upside_delta (o : Option ℚ) : ℚ :=
  match o with
  | none => 0
  | some u => if u > 20 then 0.5 else if u < -10 then -0.5 else 0

def upside_factors (o : Option ℚ) : List String :=
  match o with
  | none => []
  | some u =>
    if u > 20 then ["Significant upside to price target (" ++ pyFix 0 u ++ "%)"]
    else if u < -10 then ["Below analyst price target (" ++ pyFix 0 u ++ "%)"]
    else []

/-- Earnings beat rate uses an `is not None` guard. -/
def beat_rate_delta (o : Option ℚ) : ℚ :=
  match o with
  | none => 0
  | some b => if b ≥ 0.75 then 0.5 else if b < 0.5 then -0.5 else 0

def beat_rate_factors (o : Option ℚ) : List String :=
  match o with
  | none => []
  | some b =>
    if b ≥ 0.75 then ["Strong earnings beat rate (" ++ pyPct 0 b ++ ")"]
    else if b < 0.5 then ["Weak earnings beat rate (" ++ pyPct 0 b ++ ")"]
    else []

def momentum_raw (s : SentimentIn) : ℚ :=
  s.momentum_score.getD 5
    + mean_rating_delta s.mean_rating
    + upside_delta s.upside_pct
    + beat_rate_delta s.beat_rate

def momentum_factors (s : SentimentIn) : List String :=
  s.technical_signals.take 3
    ++ mean_rating_factors s.mean_rating
    ++ upside_factors s.upside_pct
    ++ beat_rate_factors s.beat_rate

def score_momentum_sentiment (s : SentimentIn) : CategoryScore :=
  mkCategory SCORE_WEIGHTS_momentum_sentiment (momentum_raw s) (momentum_factors s)

/-! ## `ScoringEngine.score_quality_moat`

Metrics are read with `prof.get(key, default) or default`, so a missing, `None`
or zero value falls back to the default (0, or 100 for debt/equity). -/

def margins_joint_delta (gm om : ℚ) : ℚ :=
  if gm > 0.50 ∧ om > 0.20 then 1.5 else if gm > 0.40 ∧ om > 0.15 then 0.5 else 0

def margins_joint_factors (gm om : ℚ) : List String :=
  if gm > 0.50 ∧ om > 0.20 then ["High margins suggest pricing power/moat"]
  else if gm > 0.40 ∧ om > 0.15 then ["Healthy margins indicate competitive position"]
  else []

def returns_joint_delta (roe roic : ℚ) : ℚ :=
  if roe > 0.20 ∧ roic > 0.15 then 1 else 0

def returns_joint_factors (roe roic : ℚ) : List String :=
  if roe > 0.20 ∧ roic > 0.15 then ["High ROE & ROIC suggest durable competitive advantage"]
  else []

/-- `if rev_cagr and rev_cagr > 0.10:` — truthiness plus a threshold. -/
def quality_cagr_delta (o : Option ℚ) : ℚ :=
  match pyTruthy o with
  | none => 0
  | some c => if c > 0.10 then 0.5 else 0

def quality_cagr_factors (o : Option ℚ) : List String :=
  match pyTruthy o with
  | none => []
  | some c => if c > 0.10 then ["Consistent revenue growth demonstrates market position"] else []

def quality_de_delta (de : ℚ) : ℚ := if de < 50 then 0.5 else 0

def quality_de_factors (de : ℚ) : List String :=
  if de < 50 then ["Conservative capital structure"] else []

def quality_fcf_delta (fcf : ℚ) : ℚ := if fcf > 0.04 then 0.5 else 0

def quality_fcf_factors (fcf : ℚ) : List String :=
  if fcf > 0.04 then ["Strong free cash flow generation"] else []

def quality_raw (a : AnalysisIn) : ℚ :=
  5 + margins_joint_delta ((pyTruthy a.profitability.gross_margin).getD 0)
        ((pyTruthy a.profitability.operating_margin).getD 0)
    + returns_joint_delta ((pyTruthy a.profitability.roe).getD 0)
        ((pyTruthy a.profitability.roic).getD 0)
    + quality_cagr_delta a.growth.revenue_cagr_3y
    + quality_de_delta ((pyTruthy a.financial_health.debt_to_equity).getD 100)
    + quality_fcf_delta ((pyTruthy a.valuation.fcf_yield).getD 0)

def quality_factors (a : AnalysisIn) : List String :=
  margins_joint_factors ((pyTruthy a.profitability.gross_margin).getD 0)
      ((pyTruthy a.profitability.operating_margin).getD 0)
    ++ returns_joint_factors ((pyTruthy a.profitability.roe).getD 0)
      ((pyTruthy a.profitability.roic).getD 0)
    ++ quality_cagr_factors a.growth.revenue_cagr_3y
    ++ quality_de_factors ((pyTruthy a.financial_health.debt_to_equity).getD 100)
    ++ quality_fcf_factors ((pyTruthy a.valuation.fcf_yield).getD 0)

def score_quality_moat (a : AnalysisIn) : CategoryScore :=
  mkCategory SCORE_WEIGHTS_quality_moat (quality_raw a) (quality_factors a)

/-! ## `ScoringEngine.calculate_total_score` -/

/-- The `if total_score >= ... elif ... else` recommendation chain, applied to
the unrounded sum of the six `weighted` values. -/
def recommendationOf (t : ℚ) : String :=
  if t ≥ RECOMMENDATION_THRESHOLDS_strong_buy then "Strong Buy"
  else if t ≥ RECOMMENDATION_THRESHOLDS_buy then "Buy"
  else if t ≥ RECOMMENDATION_THRESHOLDS_hold then "Hold"
  else if t ≥ RECOMMENDATION_THRESHOLDS_sell then "Sell"
  else "Strong Sell"

structure ScoreReport where
  total_score : ℚ
  recommendation : String
  valuation : CategoryScore
  growth : CategoryScore
  profitability : CategoryScore
  financial_health : CategoryScore
  momentum_sentiment : CategoryScore
  quality_moat : CategoryScore

/-- The unrounded `total_score` accumulated inside `calculate_total_score`. -/
def weightedSum (a : AnalysisIn) (p : PeerIn) (s : SentimentIn) : ℚ :=
  (score_valuation a p).weighted + (score_growth a).weighted
    + (score_profitability a).weighted + (score_financial_health a).weighted
    + (score_momentum_sentiment s).weighted + (score_quality_moat a).weighted

def calculate_total_score (a : AnalysisIn) (p : PeerIn) (s : SentimentIn) : ScoreReport :=
  { total_score := pyRound 1 (weightedSum a p s)
    recommendation := recommendationOf (weightedSum a p s)
    valuation := score_valuation a p
    growth := score_growth a
    profitability := score_profitability a
    financial_health := score_financial_health a
    momentum_sentiment := score_momentum_sentiment s
    quality_moat := score_quality_moat a }

/-! ## `PeerComparison.calculate_relative_valuation`

The comparison matrix is abstracted into one `MetricRow` per valuation metric:
the target company's cell and the peers' cells for that row (a `none` cell is
a missing/NaN entry of the DataFrame, skipped by the `pd.notna` filters). -/

structure MetricRow where
  name : String
  target : Option ℚ
  peerVals : List (Option ℚ)

def validPeers (r : MetricRow) : List ℚ := r.peerVals.filterMap id

/-- `premium_pct = ((target / peer_avg) - 1) * 100 if peer_avg > 0 else 0`. -/
def premiumFor (t avg : ℚ) : ℚ := if avg > 0 then (t / avg - 1) * 100 else 0

/-- One iteration of the metric loop: skip the metric when the target value is
missing or no peer has a valid value, else record the premium/discount. -/
def rowPremium (r : MetricRow) : Option (String × ℚ) :=
  match r.target with
  | none => none
  | some t =>
    let vs := validPeers r
    if vs.isEmpty then none
    else some (r.name, premiumFor t (vs.sum / (vs.length : ℚ)))

/-- `premium_discount` dictionary and `avg_premium_discount` value. -/
def calculate_relative_valuation (rows : List MetricRow) : List (String × ℚ) × ℚ :=
  let prems := rows.filterMap rowPremium
  (prems, if prems.isEmpty then 0 else (prems.map Prod.snd).sum / (prems.length : ℚ))

/-! ## `ThesisGenerator.generate_bull_case` / `generate_bear_case` -/

/-- Python's substring test `needle in hay` on character lists. -/
def hasSubList (needle : List Char) : List Char → Bool
  | [] => needle.isEmpty
  | c :: rest => needle.isPrefixOf (c :: rest) || hasSubList needle rest

def pyIn (needle hay : String) : Bool := hasSubList needle.toList hay.toList

/-- ASCII lowering, as `str.lower()` on the factor strings in play. -/
def lowerStr (s : String) : String := String.mk (s.toList.map Char.toLower)

def bullWords : List String :=
  ["strong", "excellent", "high", "good", "healthy", "low p/e",
   "attractive", "growth", "beat", "bullish", "upside", "above"]

def bearWords : List String :=
  ["low", "weak", "declining", "high p/e", "elevated", "risk",
   "bearish", "below", "miss", "thin", "concern"]

def isBullFactor (f : String) : Bool := bullWords.any (fun w => pyIn w (lowerStr f))

def isBearFactor (f : String) : Bool := bearWords.any (fun w => pyIn w (lowerStr f))

/-- `dict.fromkeys(points)`: drop duplicates, keeping first occurrences in order. -/
def pyDedupAux (seen : List String) : List String → List String
  | [] => []
  | x :: xs => if x ∈ seen then pyDedupAux seen xs else x :: pyDedupAux (x :: seen) xs

def pyDedup (l : List String) : List String := pyDedupAux [] l

/-- The inputs `ThesisGenerator` reads besides `scores["all_factors"]`:
pieces of `analysis`, `peer_summary` and `sentiment`. -/
structure ThesisIn where
  factors_valuation : List String
  factors_growth : List String
  factors_profitability : List String
  factors_health : List String
  factors_momentum : List String
  factors_quality : List String
  revenue_growth_1y : Option ℚ
  revenue_cagr_3y : Option ℚ
  operating_margin_trend : List (Option ℚ)
  avg_premium_discount : Option ℚ
  pe_trailing : Option ℚ
  debt_to_equity : Option ℚ
  upside_pct : Option ℚ

def allFactorsList (t : ThesisIn) : List String :=
  t.factors_valuation ++ t.factors_growth ++ t.factors_profitability
    ++ t.factors_health ++ t.factors_momentum ++ t.factors_quality

/-- `bull_points` just before deduplication and truncation. -/
def bull_points (t : ThesisIn) : List String :=
  let base := (allFactorsList t).filter isBullFactor
  let rg := (pyTruthy t.revenue_growth_1y).getD 0
  let p1 := base ++
    (if rg > 0.15 ∧ ¬ (pyIn "revenue growth" (lowerStr (String.intercalate " " base)) = true)
     then ["Revenue growing at " ++ pyPct 1 rg ++ " YoY"] else [])
  let margins := t.operating_margin_trend.filterMap id
  let p2 := p1 ++
    (if ¬ t.operating_margin_trend.isEmpty ∧ 2 ≤ margins.length ∧ margins.headD 0 > margins.getLastD 0
     then ["Operating margins expanding year-over-year"] else [])
  let p3 := p2 ++
    (if t.avg_premium_discount.getD 0 < -15
     then ["Trading at discount to peers despite comparable fundamentals"] else [])
  let upside := (pyTruthy t.upside_pct).getD 0
  p3 ++
    (if upside > 15
     then ["Analyst consensus implies " ++ pyFix 0 upside ++ "% upside potential"] else [])

def generate_bull_case (t : ThesisIn) : List String := (pyDedup (bull_points t)).take 5

/-- `bear_points` just before deduplication and truncation. -/
def bear_points (t : ThesisIn) : List String :=
  let base := (allFactorsList t).filter isBearFactor
  let q1 := base ++
    (match pyTruthy t.pe_trailing with
     | some pe =>
       if pe > 35 ∧ ¬ (pyIn "p/e" (lowerStr (String.intercalate " " base)) = true)
       then ["Trading at " ++ pyFix 0 pe ++ "x earnings - limited margin of safety"] else []
     | none => [])
  let q2 := q1 ++
    (if t.avg_premium_discount.getD 0 > 20
     then ["Premium valuation relative to peers may not be sustainable"] else [])
  let q3 := q2 ++
    (match pyTruthy t.debt_to_equity with
     | some de =>
       if de > 100 then ["Elevated debt levels (D/E: " ++ pyFix 0 de ++ "%) increase risk"]
       else []
     | none => [])
  let r1 := (pyTruthy t.revenue_growth_1y).getD 0
  let r3 := (pyTruthy t.revenue_cagr_3y).getD 0
  let q4 := q3 ++
    (if r3 > 0 ∧ r1 < r3 * 0.7 then ["Revenue growth decelerating vs historical trend"] else [])
  let upside := (pyTruthy t.upside_pct).getD 0
  q4 ++
    (if upside < -10
     then ["Trading above analyst price target (" ++ pyFix 0 upside ++ "%)"] else [])

def generate_bear_case (t : ThesisIn) : List String := (pyDedup (bear_points t)).take 5

/-! ## Helper lemmas -/

theorem mkCategory_score (w r : ℚ) (fs : List String) :
    (mkCategory w r fs).score = pyRound 1 (clampQ r) := rfl

theorem mkCategory_weighted (w r : ℚ) (fs : List String) :
    (mkCategory w r fs).weighted = pyRound 2 (clampQ r * w) := rfl

theorem recommendationOf_eq (t : ℚ) :
    recommendationOf t =
      if 8 ≤ t then "Strong Buy" else if 6.5 ≤ t then "Buy"
      else if 5 ≤ t then "Hold" else if 3.5 ≤ t then "Sell" else "Strong Sell" := by
  unfold recommendationOf RECOMMENDATION_THRESHOLDS_strong_buy RECOMMENDATION_THRESHOLDS_buy
    RECOMMENDATION_THRESHOLDS_hold RECOMMENDATION_THRESHOLDS_sell
  norm_num [ge_iff_le]

theorem pyDedupAux_sublist (seen l : List String) : (pyDedupAux seen l).Sublist l := by
  induction l generalizing seen with
  | nil => simp [pyDedupAux]
  | cons x xs ih =>
    rw [pyDedupAux]
    by_cases h : x ∈ seen
    · simp only [if_pos h]
      exact (ih seen).cons x
    · simp only [if_neg h]
      exact (ih (x :: seen)).cons₂ x

theorem pyDedupAux_mem_imp (seen l : List String) :
    ∀ y ∈ pyDedupAux seen l, y ∉ seen := by
  induction l generalizing seen with
  | nil =>
    intro y hy
    simp [pyDedupAux] at hy
  | cons x xs ih =>
    intro y hy hys
    rw [pyDedupAux] at hy
    by_cases h : x ∈ seen
    · rw [if_pos h] at hy
      exact ih seen y hy hys
    · rw [if_neg h] at hy
      rcases List.mem_cons.mp hy with rfl | hy2
      · exact h hys
      · exact ih (x :: seen) y hy2 (List.mem_cons_of_mem x hys)

theorem pyDedupAux_nodup (seen l : List String) : (pyDedupAux seen l).Nodup := by
  induction l generalizing seen with
  | nil => simp [pyDedupAux]
  | cons x xs ih =>
    rw [pyDedupAux]
    by_cases h : x ∈ seen
    · simpa [h] using ih seen
    · simp only [if_neg h, List.nodup_cons]
      exact ⟨fun hmem => pyDedupAux_mem_imp (x :: seen) xs x hmem (List.mem_cons_self x seen),
        ih (x :: seen)⟩

theorem pyDedup_sublist (l : List String) : (pyDedup l).Sublist l := pyDedupAux_sublist [] l

theorem pyDedup_nodup (l : List String) : (pyDedup l).Nodup := pyDedupAux_nodup [] l

/-! ## Claims -/

/-- Claim C1: the recommendation label is decided by comparing the total score
against the thresholds 8.0 / 6.5 / 5.0 / 3.5 in strictly descending order with
greater-or-equal tests; exactly 8.0 gives "Strong Buy", exactly 6.5 gives
"Buy", exactly 5.0 gives "Hold", exactly 3.5 gives "Sell", and anything below
3.5 (e.g. 3.49) gives "Strong Sell". -/
theorem C1_recommendation_thresholds :
    recommendationOf 8 = "Strong Buy" ∧ recommendationOf 6.5 = "Buy" ∧
    recommendationOf 5 = "Hold" ∧ recommendationOf 3.5 = "Sell" ∧
    recommendationOf 3.49 = "Strong Sell" ∧
    (∀ t : ℚ, 8 ≤ t → recommendationOf t = "Strong Buy") ∧
    (∀ t : ℚ, 6.5 ≤ t → t < 8 → recommendationOf t = "Buy") ∧
    (∀ t : ℚ, 5 ≤ t → t < 6.5 → recommendationOf t = "Hold") ∧
    (∀ t : ℚ, 3.5 ≤ t → t < 5 → recommendationOf t = "Sell") ∧
    (∀ t : ℚ, t < 3.5 → recommendationOf t = "Strong Sell") := by
  refine ⟨by with_unfolding_all rfl, by with_unfolding_all rfl, by with_unfolding_all rfl,
    by with_unfolding_all rfl, by with_unfolding_all rfl, ?_, ?_, ?_, ?_, ?_⟩
  · intro t h
    rw [recommendationOf_eq, if_pos h]
  · intro t h h2
    rw [recommendationOf_eq]
    split_ifs <;> first | rfl | linarith
  · intro t h h2
    rw [recommendationOf_eq]
    split_ifs <;> first | rfl | linarith
  · intro t h h2
    rw [recommendationOf_eq]
    split_ifs <;> first | rfl | linarith
  · intro t h
    rw [recommendationOf_eq]
    split_ifs <;> first | rfl | linarith

/-- Claim C1 witness: the banded parts of `C1_recommendation_thresholds`
applied at concrete scores. -/
theorem C1_recommendation_thresholds_witness :
    recommendationOf 9 = "Strong Buy" ∧ recommendationOf 7 = "Buy" ∧
    recommendationOf 6 = "Hold" ∧ recommendationOf 4 = "Sell" ∧
    recommendationOf 3.49 = "Strong Sell" :=
  ⟨C1_recommendation_thresholds.2.2.2.2.2.1 9 (by norm_num),
   C1_recommendation_thresholds.2.2.2.2.2.2.1 7 (by norm_num) (by norm_num),
   C1_recommendation_thresholds.2.2.2.2.2.2.2.1 6 (by norm_num) (by norm_num),
   C1_recommendation_thresholds.2.2.2.2.2.2.2.2.1 4 (by norm_num) (by norm_num),
   C1_recommendation_thresholds.2.2.2.2.2.2.2.2.2 3.49 (by norm_num)⟩

/-- Claim C2: every one of the six category scorers returns a `score` in
`[1, 10]` for every input metric bag, however extreme the metric values:
the raw additive adjustments are clamped before the score is returned. -/
theorem C2_scores_clamped (a : AnalysisIn) (p : PeerIn) (s : SentimentIn) :
    (1 ≤ (score_valuation a p).score ∧ (score_valuation a p).score ≤ 10) ∧
    (1 ≤ (score_growth a).score ∧ (score_growth a).score ≤ 10) ∧
    (1 ≤ (score_profitability a).score ∧ (score_profitability a).score ≤ 10) ∧
    (1 ≤ (score_financial_health a).score ∧ (score_financial_health a).score ≤ 10) ∧
    (1 ≤ (score_momentum_sentiment s).score ∧ (score_momentum_sentiment s).score ≤ 10) ∧
    (1 ≤ (score_quality_moat a).score ∧ (score_quality_moat a).score ≤ 10) :=
  ⟨roundedScore_bounds (valuation_raw a p), roundedScore_bounds (growth_raw a),
   roundedScore_bounds (profitability_raw a), roundedScore_bounds (financial_health_raw a),
   roundedScore_bounds (momentum_raw s), roundedScore_bounds (quality_raw a)⟩

/-- Claim C3: the trailing-P/E ladder is an `if/elif` chain, so its buckets
are mutually exclusive with first-match-wins semantics: for any trailing P/E
above 50, only the −1.5 delta is applied (never −1.5 and −0.5 together), and
scoring a bag holding only that P/E yields 5 − 1.5 = 3.5. -/
theorem C3_pe_ladder_first_match (pe : ℚ) (h : 50 < pe) :
    pe_delta (some pe) = -1.5 ∧
    (score_valuation ⟨⟨some pe, none, none, none⟩, emptyGrowthBag, emptyProfitabilityBag,
      emptyHealthBag⟩ emptyPeer).score = 3.5 := by
  have hne : pe ≠ 0 := by linarith
  have hd : pe_delta (some pe) = -1.5 := by
    unfold pe_delta
    simp only [pyTruthy, if_neg hne]
    rw [if_neg (by linarith), if_neg (by linarith), if_pos (by linarith)]
  refine ⟨hd, ?_⟩
  show pyRound 1 (clampQ (valuation_raw ⟨⟨some pe, none, none, none⟩, emptyGrowthBag,
    emptyProfitabilityBag, emptyHealthBag⟩ emptyPeer)) = 3.5
  have hraw : valuation_raw ⟨⟨some pe, none, none, none⟩, emptyGrowthBag,
      emptyProfitabilityBag, emptyHealthBag⟩ emptyPeer = 3.5 := by
    unfold valuation_raw
    rw [hd]
    simp only [emptyPeer]
    have h1 : forward_pe_delta (some pe) none = 0 := by
      simp [forward_pe_delta, pyTruthy, hne]
    rw [h1]
    norm_num [peg_delta, pyTruthy, fcf_yield_delta, premium_delta]
  rw [hraw]
  with_unfolding_all rfl

/-- Claim C3 witness: `C3_pe_ladder_first_match` at a trailing P/E of 60. -/
theorem C3_pe_ladder_first_match_witness :
    pe_delta (some 60) = -1.5 ∧
    (score_valuation ⟨⟨some 60, none, none, none⟩, emptyGrowthBag, emptyProfitabilityBag,
      emptyHealthBag⟩ emptyPeer).score = 3.5 :=
  C3_pe_ladder_first_match 60 (by norm_num)

/-- The aggregation formula exactly as claim C4 words it: each category's
weighted value is its clamped score multiplied by the configured weight, with
no rounding of the products to two decimals.  The code instead sums the
`weighted` fields, which are `round(score * weight, 2)`. -/
def total_score_claim (a : AnalysisIn) (p : PeerIn) (s : SentimentIn) : ℚ :=
  pyRound 1 (clampQ (valuation_raw a p) * SCORE_WEIGHTS_valuation
    + clampQ (growth_raw a) * SCORE_WEIGHTS_growth
    + clampQ (profitability_raw a) * SCORE_WEIGHTS_profitability
    + clampQ (financial_health_raw a) * SCORE_WEIGHTS_financial_health
    + clampQ (momentum_raw s) * SCORE_WEIGHTS_momentum_sentiment
    + clampQ (quality_raw a) * SCORE_WEIGHTS_quality_moat)

def c4Sentiment : SentimentIn := ⟨some 5.52, [], none, none, none⟩

/-- Claim C4 counterexample: with all metrics absent and a momentum score of
5.52, the code reports `total_score = 5.0` (the momentum weighted value is
rounded to 0.55 before summation, giving 5.05, whose round-half-to-even is
5.0), while the claim's formula `round(Σ clamped score × weight, 1)` gives
`round(5.052, 1) = 5.1`. -/
theorem C4_counterexample :
    (calculate_total_score emptyAnalysis emptyPeer c4Sentiment).total_score = 5 ∧
    (calculate_total_score emptyAnalysis emptyPeer c4Sentiment).momentum_sentiment.weighted
      = 0.55 ∧
    clampQ (momentum_raw c4Sentiment) * SCORE_WEIGHTS_momentum_sentiment = 0.552 ∧
    total_score_claim emptyAnalysis emptyPeer c4Sentiment = 5.1 ∧
    (5 : ℚ) ≠ 5.1 := by
  refine ⟨?_, ?_, ?_, ?_, ?_⟩ <;> with_unfolding_all decide

/-- Claim C4 as amended: the reported `total_score` equals
`round(Σ weighted, 1)` where each category's `weighted` value is its clamped
score multiplied by the category's fixed weight and then rounded to two
decimals, and the six configuration weights sum to exactly 1.0. -/
theorem C4_amended (a : AnalysisIn) (p : PeerIn) (s : SentimentIn) :
    (calculate_total_score a p s).total_score =
      pyRound 1 ((calculate_total_score a p s).valuation.weighted
        + (calculate_total_score a p s).growth.weighted
        + (calculate_total_score a p s).profitability.weighted
        + (calculate_total_score a p s).financial_health.weighted
        + (calculate_total_score a p s).momentum_sentiment.weighted
        + (calculate_total_score a p s).quality_moat.weighted) ∧
    (calculate_total_score a p s).valuation.weighted
      = pyRound 2 (clampQ (valuation_raw a p) * SCORE_WEIGHTS_valuation) ∧
    (calculate_total_score a p s).growth.weighted
      = pyRound 2 (clampQ (growth_raw a) * SCORE_WEIGHTS_growth) ∧
    (calculate_total_score a p s).profitability.weighted
      = pyRound 2 (clampQ (profitability_raw a) * SCORE_WEIGHTS_profitability) ∧
    (calculate_total_score a p s).financial_health.weighted
      = pyRound 2 (clampQ (financial_health_raw a) * SCORE_WEIGHTS_financial_health) ∧
    (calculate_total_score a p s).momentum_sentiment.weighted
      = pyRound 2 (clampQ (momentum_raw s) * SCORE_WEIGHTS_momentum_sentiment) ∧
    (calculate_total_score a p s).quality_moat.weighted
      = pyRound 2 (clampQ (quality_raw a) * SCORE_WEIGHTS_quality_moat) ∧
    SCORE_WEIGHTS_valuation + SCORE_WEIGHTS_growth + SCORE_WEIGHTS_profitability
      + SCORE_WEIGHTS_financial_health + SCORE_WEIGHTS_momentum_sentiment
      + SCORE_WEIGHTS_quality_moat = 1 :=
  ⟨rfl, rfl, rfl, rfl, rfl, rfl, rfl, by
    norm_num [SCORE_WEIGHTS_valuation, SCORE_WEIGHTS_growth, SCORE_WEIGHTS_profitability,
      SCORE_WEIGHTS_financial_health, SCORE_WEIGHTS_momentum_sentiment,
      SCORE_WEIGHTS_quality_moat]⟩

def c5Rows : List MetricRow := [⟨"P/B", some 10, [some (-5)]⟩]

/-- Claim C5 counterexample: with a target P/B of 10 and a single peer P/B of
−5, the peer average is −5 ≤ 0, so the code records a premium of 0% for the
metric, while the claimed formula `(target/peer_avg − 1) × 100` gives −300%. -/
theorem C5_counterexample :
    (calculate_relative_valuation c5Rows).1 = [("P/B", 0)] ∧
    ((10 : ℚ) / (-5) - 1) * 100 = -300 ∧ (0 : ℚ) ≠ -300 := by
  refine ⟨by with_unfolding_all rfl, by norm_num, by norm_num⟩

/-- Claim C5 as amended: a metric is evaluated iff the target value is present
and at least one peer has a valid value; its premium/discount is
`(target/peer_avg − 1) × 100` when the peer average is positive and is
recorded as 0 otherwise; a metric with no valid peer value is excluded
entirely, and `avg_premium_discount` is the unweighted arithmetic mean over
the evaluated metrics (0 when none were evaluated). -/
theorem C5_amended (rows : List MetricRow) :
    (calculate_relative_valuation rows).1 =
      (rows.filter (fun r => r.target.isSome && !(validPeers r).isEmpty)).map
        (fun r => (r.name,
          premiumFor (r.target.getD 0) ((validPeers r).sum / ((validPeers r).length : ℚ)))) ∧
    (calculate_relative_valuation rows).2 =
      (if (calculate_relative_valuation rows).1.isEmpty then 0
       else ((calculate_relative_valuation rows).1.map Prod.snd).sum
         / (((calculate_relative_valuation rows).1.length : ℕ) : ℚ)) := by
  constructor
  · show rows.filterMap rowPremium = _
    induction rows with
    | nil => rfl
    | cons r rs ih =>
      rw [List.filterMap_cons, List.filter_cons]
      cases hr : r.target with
      | none => simpa [rowPremium, hr] using ih
      | some t =>
        by_cases hv : (validPeers r).isEmpty
        · simp [rowPremium, hr, hv, ih]
        · simp [rowPremium, hr, hv, ih]
  · rfl

/-- Claim C6: missing metrics never make a scorer fail: an absent or `None`
metric contributes no adjustment and no factor string (each per-metric delta
is 0 at `none`), and every scorer on entirely empty inputs returns the
neutral baseline 5.0 with an empty factors list (for valuation, with
`weighted = round(5 * 0.25, 2) = 1.25`). -/
theorem C6_missing_metrics_neutral :
    ((score_valuation emptyAnalysis emptyPeer).score = 5 ∧
      (score_valuation emptyAnalysis emptyPeer).factors = [] ∧
      (score_valuation emptyAnalysis emptyPeer).weighted = 1.25) ∧
    ((score_growth emptyAnalysis).score = 5 ∧ (score_growth emptyAnalysis).factors = []) ∧
    ((score_profitability emptyAnalysis).score = 5 ∧
      (score_profitability emptyAnalysis).factors = []) ∧
    ((score_financial_health emptyAnalysis).score = 5 ∧
      (score_financial_health emptyAnalysis).factors = []) ∧
    ((score_momentum_sentiment emptySentiment).score = 5 ∧
      (score_momentum_sentiment emptySentiment).factors = []) ∧
    ((score_quality_moat emptyAnalysis).score = 5 ∧
      (score_quality_moat emptyAnalysis).factors = []) ∧
    pe_delta none = 0 ∧ pe_factors none = [] ∧
    (∀ x, forward_pe_delta none x = 0) ∧ (∀ x, forward_pe_delta x none = 0) ∧
    peg_delta none = 0 ∧ peg_factors none = [] ∧
    fcf_yield_delta none = 0 ∧ fcf_yield_factors none = [] ∧
    revenue_growth_delta none = 0 ∧ revenue_growth_factors none = [] ∧
    pyOrOpt none none = none ∧
    revenue_cagr_delta none = 0 ∧ revenue_cagr_factors none = [] ∧
    eps_growth_delta none = 0 ∧ eps_growth_factors none = [] ∧
    fcf_growth_delta none = 0 ∧ fcf_growth_factors none = [] ∧
    gross_margin_delta none = 0 ∧ gross_margin_factors none = [] ∧
    op_margin_delta none = 0 ∧ op_margin_factors none = [] ∧
    roe_delta none = 0 ∧ roe_factors none = [] ∧
    roic_delta none = 0 ∧ roic_factors none = [] ∧
    current_ratio_delta none = 0 ∧ current_ratio_factors none = [] ∧
    de_ratio_delta none = 0 ∧ de_ratio_factors none = [] ∧
    interest_coverage_delta none = 0 ∧ interest_coverage_factors none = [] ∧
    z_score_delta none = 0 ∧ z_score_factors none = [] ∧
    mean_rating_delta none = 0 ∧ mean_rating_factors none = [] ∧
    upside_delta none = 0 ∧ upside_factors none = [] ∧
    beat_rate_delta none = 0 ∧ beat_rate_factors none = [] ∧
    quality_cagr_delta none = 0 ∧ quality_cagr_factors none = [] := by
  refine ⟨⟨by with_unfolding_all rfl, by with_unfolding_all rfl, by with_unfolding_all rfl⟩,
    ⟨by with_unfolding_all rfl, by with_unfolding_all rfl⟩,
    ⟨by with_unfolding_all rfl, by with_unfolding_all rfl⟩,
    ⟨by with_unfolding_all rfl, by with_unfolding_all rfl⟩,
    ⟨by with_unfolding_all rfl, by with_unfolding_all rfl⟩,
    ⟨by with_unfolding_all rfl, by with_unfolding_all rfl⟩, ?_⟩
  repeat' apply And.intro
  all_goals first
    | rfl
    | (intro x
       cases x with
       | none => rfl
       | some v =>
         by_cases hv : v = 0 <;>
           simp [forward_pe_delta, pyTruthy, hv])

/-- A factor list holding only `"Low P/E (12.0x) suggests value"` — a string
`score_valuation` really produces (for a trailing P/E of 12), which contains
the bull keyword `"low p/e"` and the bear keyword `"low"`. -/
def c7Thesis : ThesisIn :=
  ⟨["Low P/E (12.0x) suggests value"], [], [], [], [], [],
   none, none, [], none, none, none, none⟩

/-- Claim C7 counterexample: the factor "Low P/E (12.0x) suggests value"
matches both a bull keyword ("low p/e") and a bear keyword ("low") and lands
in the bull list and in the bear list — the two membership tests are run
independently by `generate_bull_case` and `generate_bear_case`, so the same
factor string can appear in both. -/
theorem C7_counterexample :
    generate_bull_case c7Thesis = ["Low P/E (12.0x) suggests value"] ∧
    generate_bear_case c7Thesis = ["Low P/E (12.0x) suggests value"] := by
  constructor <;> with_unfolding_all rfl

def c7DupThesis : ThesisIn :=
  ⟨["Strong revenue growth (30.0%)"], ["Strong revenue growth (30.0%)"], [], [], [], [],
   none, none, [], none, none, none, none⟩

/-- Claim C7 as amended: bull and bear synthesis run independent keyword
membership tests, so a factor string containing both a bull and a bear
keyword appears in both lists; within each list duplicates are removed
preserving first-seen order (each returned list is duplicate-free and a
sublist of the points in generation order) and the list is truncated to 5
items.  "Strong revenue growth (30.0%)" classifies as bull,
"Revenue declining (-5.0%)" classifies as bear, and a factor repeated across
categories appears once. -/
theorem C7_amended :
    (∀ t : ThesisIn,
      (generate_bull_case t).Nodup ∧ (generate_bull_case t).length ≤ 5 ∧
      (generate_bull_case t).Sublist (bull_points t) ∧
      (generate_bear_case t).Nodup ∧ (generate_bear_case t).length ≤ 5 ∧
      (generate_bear_case t).Sublist (bear_points t)) ∧
    isBullFactor "Strong revenue growth (30.0%)" = true ∧
    isBearFactor "Revenue declining (-5.0%)" = true ∧
    generate_bull_case c7DupThesis = ["Strong revenue growth (30.0%)"] ∧
    generate_bull_case c7Thesis = ["Low P/E (12.0x) suggests value"] ∧
    generate_bear_case c7Thesis = ["Low P/E (12.0x) suggests value"] := by
  refine ⟨?_, by with_unfolding_all rfl, by with_unfolding_all rfl,
    by with_unfolding_all rfl, by with_unfolding_all rfl, by with_unfolding_all rfl⟩
  intro t
  refine ⟨?_, ?_, ?_, ?_, ?_, ?_⟩
  · exact ((pyDedup_nodup (bull_points t)).sublist (List.take_sublist 5 _))
  · exact List.length_take_le 5 _
  · exact (List.take_sublist 5 _).trans (pyDedup_sublist (bull_points t))
  · exact ((pyDedup_nodup (bear_points t)).sublist (List.take_sublist 5 _))
  · exact List.length_take_le 5 _
  · exact (List.take_sublist 5 _).trans (pyDedup_sublist (bear_points t))

def c8Analysis : AnalysisIn :=
  ⟨⟨some 12, none, none, none⟩,
   ⟨some 0.35, none, none, none, none⟩,
   ⟨some 0.65, none, none, none⟩,
   ⟨none, some 20, none, none⟩⟩

def c8Peer : PeerIn := ⟨some (-25)⟩

def c8Sentiment : SentimentIn := ⟨some 7, [], none, none, none⟩

/-- Claim C8 counterexample: with trailing P/E = 12, revenue growth = 35%,
gross margin = 65%, debt/equity = 20, momentum score = 7 and peer
premium/discount = −25% (all other metrics absent), the engine yields
Valuation 7.5 (not ≥ 8), Growth 7.0 (not ≥ 8), Profitability 6.5 (not ≥ 7.5),
Financial Health 6.0 (not ≥ 7), and the recommendation is "Buy", not
"Strong Buy" (the unrounded total is 6.73). -/
theorem C8_counterexample :
    (score_valuation c8Analysis c8Peer).score = 7.5 ∧
    ¬ (8 ≤ (score_valuation c8Analysis c8Peer).score) ∧
    (score_growth c8Analysis).score = 7 ∧
    ¬ (8 ≤ (score_growth c8Analysis).score) ∧
    (score_profitability c8Analysis).score = 6.5 ∧
    ¬ (7.5 ≤ (score_profitability c8Analysis).score) ∧
    (score_financial_health c8Analysis).score = 6 ∧
    ¬ (7 ≤ (score_financial_health c8Analysis).score) ∧
    weightedSum c8Analysis c8Peer c8Sentiment = 6.73 ∧
    (calculate_total_score c8Analysis c8Peer c8Sentiment).recommendation = "Buy" ∧
    "Buy" ≠ "Strong Buy" := by
  refine ⟨?_, ?_, ?_, ?_, ?_, ?_, ?_, ?_, ?_, ?_, ?_⟩ <;> with_unfolding_all decide

/-- Claim C8 as amended: for that same input, the engine yields a Valuation
score ≥ 7.5, a Growth score ≥ 7, a Profitability score ≥ 6.5, a Financial
Health score ≥ 6, and a total score whose recommendation is "Buy". -/
theorem C8_amended :
    7.5 ≤ (score_valuation c8Analysis c8Peer).score ∧
    7 ≤ (score_growth c8Analysis).score ∧
    6.5 ≤ (score_profitability c8Analysis).score ∧
    6 ≤ (score_financial_health c8Analysis).score ∧
    (calculate_total_score c8Analysis c8Peer c8Sentiment).recommendation = "Buy" := by
  refine ⟨?_, ?_, ?_, ?_, ?_⟩ <;> with_unfolding_all decide

def c9Analysis : AnalysisIn :=
  ⟨⟨some 12, none, none, none⟩,
   ⟨some 0.35, none, none, none, none⟩,
   ⟨some 0.65, none, none, none⟩,
   ⟨none, some 20, none, none⟩⟩

def c9Peer : PeerIn := ⟨some (-25)⟩

def c9Sentiment : SentimentIn := ⟨some 4.5, [], none, none, none⟩

/-- Claim C9: the recommendation label is decided on the unrounded sum of the
six weighted values, before `total_score` is rounded to one decimal; with the
inputs below the unrounded sum is 6.48, so the reported `total_score` is the
threshold value 6.5 (whose band is "Buy") while the recommendation is "Hold",
the label of the band below. -/
theorem C9_recommendation_before_rounding :
    (∀ (a : AnalysisIn) (p : PeerIn) (s : SentimentIn),
      (calculate_total_score a p s).recommendation = recommendationOf (weightedSum a p s) ∧
      (calculate_total_score a p s).total_score = pyRound 1 (weightedSum a p s)) ∧
    weightedSum c9Analysis c9Peer c9Sentiment = 6.48 ∧
    (calculate_total_score c9Analysis c9Peer c9Sentiment).total_score = 6.5 ∧
    (calculate_total_score c9Analysis c9Peer c9Sentiment).recommendation = "Hold" ∧
    recommendationOf 6.5 = "Buy" := by
  refine ⟨fun a p s => ⟨rfl, rfl⟩, ?_, ?_, ?_, ?_⟩ <;> with_unfolding_all decide

def c10DeAnalysis : AnalysisIn :=
  ⟨emptyValuationBag, emptyGrowthBag, emptyProfitabilityBag, ⟨none, some 0, none, none⟩⟩

def c10CrAnalysis : AnalysisIn :=
  ⟨emptyValuationBag, emptyGrowthBag, emptyProfitabilityBag, ⟨some 0, none, none, none⟩⟩

def c10IcAnalysis : AnalysisIn :=
  ⟨emptyValuationBag, emptyGrowthBag, emptyProfitabilityBag, ⟨none, none, some 0, none⟩⟩

def c10ZAnalysis : AnalysisIn :=
  ⟨emptyValuationBag, emptyGrowthBag, emptyProfitabilityBag, ⟨none, none, none, some 0⟩⟩

/-- Claim C10: in the financial-health scorer a debt/equity of exactly 0
passes the explicit `is not None` check and receives the +1 low-leverage
adjustment with its factor string, whereas a current ratio, interest
coverage, or Altman Z-Score of exactly 0 is tested by truthiness and behaves
like a missing metric: no adjustment, no factor. -/
theorem C10_zero_metric_asymmetry :
    (score_financial_health c10DeAnalysis).score = 6 ∧
    (score_financial_health c10DeAnalysis).factors = ["Low leverage (D/E: 0%)"] ∧
    (score_financial_health c10CrAnalysis).score = 5 ∧
    (score_financial_health c10CrAnalysis).factors = [] ∧
    (score_financial_health c10IcAnalysis).score = 5 ∧
    (score_financial_health c10IcAnalysis).factors = [] ∧
    (score_financial_health c10ZAnalysis).score = 5 ∧
    (score_financial_health c10ZAnalysis).factors = [] := by
  refine ⟨?_, ?_, ?_, ?_, ?_, ?_, ?_, ?_⟩ <;> with_unfolding_all rfl

end Geyser
